import Mathlib

/-!
Shallow embedding of `src/integrations/utils/src/lib.rs`, the leptos server
integration utilities: the live-reload bootstrap script generator
(`autoreload`), the two document shell builders (`html_parts`,
`html_parts_separated`) and the streaming response assembler
(`build_async_response`).

Modelling choices:
* Process environment reads (`std::env::var`) are explicit record fields of
  `Env`; `none` models `Err(VarError::NotPresent)`.  The compile-time read
  (`std::option_env!`) lives in a separate `CompileEnv` record, since the two
  mechanisms are resolved at different times in the original program.
* The external constant `leptos_hot_reload::HOT_RELOAD_JS` (another crate, not
  part of this repository) is threaded through as the `hot_reload_js`
  parameter.
* `MetaContext` (from the `leptos_meta` crate, also external) is flattened to
  the three reads this file performs on it: `html.as_string()`,
  `body.as_string()` and `dehydrate()`.  No await point separates the reads in
  `build_async_response`, so the collected metadata state is fixed while this
  code runs and plain fields are a faithful model.
* The body stream (`impl Stream<Item = String>`) is the finite list of chunks
  it yields, in arrival order; the `while let` drain is a left fold.
* Literal braces, apostrophes, backticks and backslash-quote sequences of the
  Rust raw strings appear here as the escapes \x7b, \x7d, \x27, \x60 and \\\".
* The side effects of `build_async_response` (stream polls, context lookups,
  metadata reads, runtime disposal) are mirrored by an explicit event list in
  program order, so that temporal claims about disposal can be stated.
-/

namespace LeptosIntegrations

/-- The host/port pair the server binds (`std::net::SocketAddr`); `ip` is the
textual rendering of the address' IP part, i.e. what `addr.ip().to_string()`
returns. -/
structure SocketAddr where
  ip : String
  port : Nat
deriving DecidableEq

/-- The `LeptosOptions` configuration record, restricted to the fields this
file reads: `site_addr`, `reload_port`, `site_pkg_dir`, `output_name`. -/
structure LeptosOptions where
  site_addr : SocketAddr
  reload_port : Nat
  site_pkg_dir : String
  output_name : String
deriving DecidableEq

/-- The metadata context collected by the rendering engine, flattened to the
three reads performed in this file: `html` is the result of
`mc.html.as_string()` (attributes for the `<html>` tag), `body` the result of
`meta.body.as_string()` (attributes for the `<body>` tag), and `dehydrate` the
fragment returned by `meta.dehydrate()` (serialized head metadata). -/
structure MetaContext where
  html : Option String
  body : Option String
  dehydrate : String
deriving DecidableEq

/-- The request-time process environment (`std::env::var`): exactly the four
variables this file reads. `none` models an absent variable. -/
structure Env where
  LEPTOS_SITE_EXTERNAL_HOSTNAME : Option String
  LEPTOS_SITE_EXTERNAL_PORT : Option String
  LEPTOS_WATCH : Option String
  LEPTOS_OUTPUT_NAME : Option String
deriving DecidableEq

/-- The compile-time environment (`std::option_env!`): only `LEPTOS_OUTPUT_NAME`
is consulted at compile time, in `html_parts`. -/
structure CompileEnv where
  LEPTOS_OUTPUT_NAME : Option String
deriving DecidableEq

/-- The rendering context handle (the `(RuntimeId, ScopeId)` pair passed to
`build_async_response`), modelled by what `use_context::<MetaContext>` returns
for the scope it identifies. -/
structure RenderingContext where
  meta_context : Option MetaContext
deriving DecidableEq

/-- `autoreload` (lib.rs lines 9-46): the development live-reload bootstrap
script generator.  `hot_reload_js` stands for the external constant
`leptos_hot_reload::HOT_RELOAD_JS` interpolated into the script. -/
def autoreload (hot_reload_js : String) (env : Env) (options : LeptosOptions) :
    String :=
  let site_ip := env.LEPTOS_SITE_EXTERNAL_HOSTNAME.getD options.site_addr.ip
  let reload_port :=
    env.LEPTOS_SITE_EXTERNAL_PORT.getD (toString options.reload_port)
  match env.LEPTOS_WATCH.isSome with
  | true =>
    "\n                <script crossorigin=\"\">(function () \x7b\n                    "
    ++ hot_reload_js
    ++ "\n                    var ws = new WebSocket(\x27"
    ++ "ws://"
    ++ site_ip
    ++ ":"
    ++ reload_port
    ++ "/live_reload"
    ++ "\x27);\n                    ws.onmessage = (ev) => \x7b\n                        let msg = JSON.parse(ev.data);\n                        if (msg.all) window.location.reload();\n                        if (msg.css) \x7b\n                            let found = false;\n                            document.querySelectorAll(\"link\").forEach((link) => \x7b\n                                if (link.getAttribute(\x27href\x27).includes(msg.css)) \x7b\n                                    let newHref = \x27/\x27 + msg.css + \x27?version=\x27 + new Date().getMilliseconds();\n                                    link.setAttribute(\x27href\x27, newHref);\n                                    found = true;\n                                \x7d\n                            \x7d);\n                            if (!found) console.warn(\x60CSS hot-reload: Could not find a <link href=/\\\"$\x7bmsg.css\x7d\\\"> element\x60);\n                        \x7d;\n                        if(msg.view) \x7b\n                            patch(msg.view);\n                        \x7d\n                    \x7d;\n                    ws.onclose = () => console.warn(\x27Live-reload stopped. Manual reload necessary.\x27);\n                \x7d)()\n                </script>\n                "
  | false => ""

/-- lib.rs lines 58-61 (inside `html_parts`): the WebAssembly artifact name;
`_bg` is appended to `output_name` exactly when `LEPTOS_OUTPUT_NAME` was not
set at compile time (`std::option_env!(..).is_none()`). -/
def wasm_output_name_compile (compile_env : CompileEnv) (output_name : String) :
    String :=
  if compile_env.LEPTOS_OUTPUT_NAME.isNone then output_name ++ "_bg"
  else output_name

/-- lib.rs lines 94-97 (inside `html_parts_separated`): the WebAssembly
artifact name; `_bg` is appended to `output_name` exactly when the
`LEPTOS_OUTPUT_NAME` environment variable is absent at request time
(`std::env::var(..).is_err()`). -/
def wasm_output_name_runtime (env : Env) (output_name : String) : String :=
  if env.LEPTOS_OUTPUT_NAME.isNone then output_name ++ "_bg"
  else output_name

/-- `html_parts` (lib.rs lines 48-81): the combined document shell builder.
Returns the `(head, tail)` string pair.  The dehydrated metadata fragment is
never consulted; only `mc.html.as_string()` is. -/
def html_parts (hot_reload_js : String) (compile_env : CompileEnv) (env : Env)
    (options : LeptosOptions) (meta : Option MetaContext) : String × String :=
  let pkg_path := options.site_pkg_dir
  let output_name := options.output_name
  let wasm_output_name := wasm_output_name_compile compile_env output_name
  let leptos_autoreload := autoreload hot_reload_js env options
  let html_metadata := (meta.bind fun mc => mc.html).getD ""
  let head :=
    "<!DOCTYPE html>\n            <html"
    ++ html_metadata
    ++ ">\n                <head>\n                    <meta charset=\"utf-8\"/>\n                    <meta name=\"viewport\" content=\"width=device-width, initial-scale=1\"/>\n                    <link rel=\"modulepreload\" href=\"/"
    ++ pkg_path
    ++ "/"
    ++ output_name
    ++ ".js\">\n                    <link rel=\"preload\" href=\"/"
    ++ pkg_path
    ++ "/"
    ++ wasm_output_name
    ++ ".wasm\" as=\"fetch\" type=\"application/wasm\" crossorigin=\"\">\n                    <script type=\"module\">import init, \x7b hydrate \x7d from \x27/"
    ++ pkg_path
    ++ "/"
    ++ output_name
    ++ ".js\x27; init(\x27/"
    ++ pkg_path
    ++ "/"
    ++ wasm_output_name
    ++ ".wasm\x27).then(hydrate);</script>\n                    "
    ++ leptos_autoreload
    ++ "\n                    "
  let tail := "</body></html>"
  (head, tail)

/-- `html_parts_separated` (lib.rs lines 84-122): the separated document shell
builder.  Same shell as `html_parts`, but the WebAssembly suffix is resolved
through the request-time environment variable, and the dehydrated metadata
fragment (`meta.dehydrate()`, empty when no context is supplied) is spliced
into the head between the viewport meta tag and the preload links. -/
def html_parts_separated (hot_reload_js : String) (env : Env)
    (options : LeptosOptions) (meta : Option MetaContext) : String × String :=
  let pkg_path := options.site_pkg_dir
  let output_name := options.output_name
  let wasm_output_name := wasm_output_name_runtime env output_name
  let leptos_autoreload := autoreload hot_reload_js env options
  let html_metadata := (meta.bind fun mc => mc.html).getD ""
  let head := (meta.map fun m => m.dehydrate).getD ""
  let head :=
    "<!DOCTYPE html>\n            <html"
    ++ html_metadata
    ++ ">\n                <head>\n                    <meta charset=\"utf-8\"/>\n                    <meta name=\"viewport\" content=\"width=device-width, initial-scale=1\"/>\n                    "
    ++ head
    ++ "\n                    <link rel=\"modulepreload\" href=\"/"
    ++ pkg_path
    ++ "/"
    ++ output_name
    ++ ".js\">\n                    <link rel=\"preload\" href=\"/"
    ++ pkg_path
    ++ "/"
    ++ wasm_output_name
    ++ ".wasm\" as=\"fetch\" type=\"application/wasm\" crossorigin=\"\">\n                    <script type=\"module\">import init, \x7b hydrate \x7d from \x27/"
    ++ pkg_path
    ++ "/"
    ++ output_name
    ++ ".js\x27; init(\x27/"
    ++ pkg_path
    ++ "/"
    ++ wasm_output_name
    ++ ".wasm\x27).then(hydrate);</script>\n                    "
    ++ leptos_autoreload
    ++ "\n                    "
  let tail := "</body></html>"
  (head, tail)

/-- `build_async_response` (lib.rs lines 125-155): drain the body stream into a
buffer, build the shell through the separated builder using the metadata
context looked up for `(runtime, scope)`, perform the second (authoritative)
metadata read, dispose the runtime, and concatenate the final document. -/
def build_async_response (hot_reload_js : String) (env : Env)
    (stream : List String) (options : LeptosOptions)
    (ctx : RenderingContext) : String :=
  let buf := stream.foldl (fun buf chunk => buf ++ chunk) ""
  let ht := html_parts_separated hot_reload_js env options ctx.meta_context
  let head := ht.1
  let tail := ht.2
  let meta := ctx.meta_context
  let head_meta := (meta.map fun m => m.dehydrate).getD ""
  let body_meta := (meta.bind fun m => m.body).getD ""
  head ++ head_meta ++ "</head><body" ++ body_meta ++ ">" ++ buf ++ tail

/-- The observable side effects of `build_async_response`, used to state the
temporal claims: polling the stream, looking up the context, the individual
metadata reads, and runtime disposal. -/
inductive Event where
  | streamNext (chunk : String)
  | contextLookup
  | htmlAttrRead
  | dehydrateCall
  | bodyAttrRead
  | dispose
deriving DecidableEq

/-- The metadata reads `html_parts_separated` performs, in program order
(lib.rs lines 101-106): `mc.html.as_string()` then `meta.dehydrate()`; no read
happens when no context is supplied. -/
def html_parts_separated_events (meta : Option MetaContext) : List Event :=
  match meta with
  | some _ => [Event.htmlAttrRead, Event.dehydrateCall]
  | none => []

/-- The side effects of `build_async_response`, in program order (lib.rs lines
131-152): drain the stream chunk by chunk (131-135), look up the context and
build the shell, which performs the first metadata read (137-139), look up the
context again and perform the second read, `dehydrate()` then
`body.as_string()` (142-150), finally dispose the runtime (152). -/
def build_async_response_events (stream : List String)
    (meta : Option MetaContext) : List Event :=
  stream.map Event.streamNext
  ++ [Event.contextLookup]
  ++ html_parts_separated_events meta
  ++ [Event.contextLookup]
  ++ (match meta with
      | some _ => [Event.dehydrateCall, Event.bodyAttrRead]
      | none => [])
  ++ [Event.dispose]

/-- Modelled from the spec: the stream type in src
(`impl Stream<Item = String>`) cannot surface transport errors, so the failure
path of spec section 7(b) has no carrier under src/.  A fallible chunk stream
is modelled as a list of `Except`: draining appends `ok` chunks to the buffer
in arrival order and aborts on the first `error`, propagating it unmodified. -/
def drain_fallible (buf : String) :
    List (Except String String) → Except String String
  | [] => Except.ok buf
  | Except.error e :: _ => Except.error e
  | Except.ok chunk :: rest => drain_fallible (buf ++ chunk) rest

/-- Modelled from the spec: `build_async_response` over a fallible chunk
stream.  On a successful drain the document is assembled exactly as in
`build_async_response`; a stream error aborts the whole assembly and is
returned unmodified, so no partial document string is produced. -/
def build_async_response_fallible (hot_reload_js : String) (env : Env)
    (stream : List (Except String String)) (options : LeptosOptions)
    (ctx : RenderingContext) : Except String String :=
  (drain_fallible "" stream).map fun buf =>
    let ht := html_parts_separated hot_reload_js env options ctx.meta_context
    let head := ht.1
    let tail := ht.2
    let meta := ctx.meta_context
    let head_meta := (meta.map fun m => m.dehydrate).getD ""
    let body_meta := (meta.bind fun m => m.body).getD ""
    head ++ head_meta ++ "</head><body" ++ body_meta ++ ">" ++ buf ++ tail

/-- The part of the separated head that precedes the spliced metadata
fragment: doctype, the `<html>` tag carrying `html_metadata`, the charset meta
tag and the viewport meta tag, ending in the indentation right before the
splice point. -/
def sep_head_before_splice (html_metadata : String) : String :=
  "<!DOCTYPE html>\n            <html"
  ++ html_metadata
  ++ ">\n                <head>\n                    <meta charset=\"utf-8\"/>\n                    <meta name=\"viewport\" content=\"width=device-width, initial-scale=1\"/>\n                    "

/-- The part of the separated head that follows the spliced metadata fragment:
the modulepreload link, the WebAssembly preload link, the module bootstrap
script, and the autoreload slot. -/
def sep_head_after_splice (hot_reload_js : String) (env : Env)
    (options : LeptosOptions) : String :=
  "\n                    <link rel=\"modulepreload\" href=\"/"
  ++ options.site_pkg_dir
  ++ "/"
  ++ options.output_name
  ++ ".js\">\n                    <link rel=\"preload\" href=\"/"
  ++ options.site_pkg_dir
  ++ "/"
  ++ wasm_output_name_runtime env options.output_name
  ++ ".wasm\" as=\"fetch\" type=\"application/wasm\" crossorigin=\"\">\n                    <script type=\"module\">import init, \x7b hydrate \x7d from \x27/"
  ++ options.site_pkg_dir
  ++ "/"
  ++ options.output_name
  ++ ".js\x27; init(\x27/"
  ++ options.site_pkg_dir
  ++ "/"
  ++ wasm_output_name_runtime env options.output_name
  ++ ".wasm\x27).then(hydrate);</script>\n                    "
  ++ autoreload hot_reload_js env options
  ++ "\n                    "

/-- C1: every finished run of `build_async_response` returns exactly the
concatenation, in this order, of the head string from the separated shell
builder, the head-metadata dehydration from the second metadata read, the
literal `</head><body`, the body-attribute string, the literal `>`, the full
accumulated body buffer, and the tail string `</body></html>`. -/
theorem build_async_response_concatenation (hot_reload_js : String) (env : Env)
    (stream : List String) (options : LeptosOptions) (ctx : RenderingContext) :
    build_async_response hot_reload_js env stream options ctx =
      (html_parts_separated hot_reload_js env options ctx.meta_context).1
      ++ ((ctx.meta_context.map fun m => m.dehydrate).getD "")
      ++ "</head><body"
      ++ ((ctx.meta_context.bind fun m => m.body).getD "")
      ++ ">"
      ++ stream.foldl (fun buf chunk => buf ++ chunk) ""
      ++ "</body></html>" := rfl

/-- C2: the body segment of the document produced by `build_async_response` is
exactly the concatenation of all stream fragments in arrival order, none
dropped, reordered or truncated; in particular the stream
`["<p>a</p>", "<p>b</p>"]` yields the body segment `"<p>a</p><p>b</p>"`. -/
theorem build_async_response_body_order (hot_reload_js : String) (env : Env)
    (stream : List String) (options : LeptosOptions) (ctx : RenderingContext) :
    (build_async_response hot_reload_js env stream options ctx =
      ((html_parts_separated hot_reload_js env options ctx.meta_context).1
        ++ ((ctx.meta_context.map fun m => m.dehydrate).getD "")
        ++ "</head><body"
        ++ ((ctx.meta_context.bind fun m => m.body).getD "")
        ++ ">")
      ++ String.join stream
      ++ "</body></html>")
    ∧ String.join ["<p>a</p>", "<p>b</p>"] = "<p>a</p><p>b</p>"
    ∧ build_async_response hot_reload_js env ["<p>a</p>", "<p>b</p>"] options ctx
        = ((html_parts_separated hot_reload_js env options ctx.meta_context).1
          ++ ((ctx.meta_context.map fun m => m.dehydrate).getD "")
          ++ "</head><body"
          ++ ((ctx.meta_context.bind fun m => m.body).getD "")
          ++ ">")
          ++ "<p>a</p><p>b</p>"
          ++ "</body></html>" := by
  refine ⟨rfl, by decide, ?_⟩
  show _ = _ ++ String.join ["<p>a</p>", "<p>b</p>"] ++ _
  rfl

/-- C5: when the `LEPTOS_WATCH` flag is absent, `autoreload` returns the empty
string, and consequently neither shell builder's output depends on the
live-reload payload at all. -/
theorem autoreload_production_empty (hot_reload_js hot_reload_js' : String)
    (h p o : Option String) (options : LeptosOptions)
    (compile_env : CompileEnv) (meta : Option MetaContext) :
    autoreload hot_reload_js ⟨h, p, none, o⟩ options = ""
    ∧ html_parts hot_reload_js compile_env ⟨h, p, none, o⟩ options meta
        = html_parts hot_reload_js' compile_env ⟨h, p, none, o⟩ options meta
    ∧ html_parts_separated hot_reload_js ⟨h, p, none, o⟩ options meta
        = html_parts_separated hot_reload_js' ⟨h, p, none, o⟩ options meta := by
  refine ⟨rfl, ?_, ?_⟩ <;> simp [html_parts, html_parts_separated, autoreload]

/-- C7: `html_parts_separated` splices the dehydrated metadata fragment into
the head strictly after the viewport meta tag (the last item of
`sep_head_before_splice`) and strictly before the preload links and module
bootstrap script (the content of `sep_head_after_splice`); with no metadata
context the spliced fragment is empty. -/
theorem html_parts_separated_splices_meta (hot_reload_js : String) (env : Env)
    (options : LeptosOptions) (m : MetaContext) :
    ((html_parts_separated hot_reload_js env options (some m)).1
      = sep_head_before_splice ((m.html).getD "")
        ++ m.dehydrate
        ++ sep_head_after_splice hot_reload_js env options)
    ∧ ((html_parts_separated hot_reload_js env options none).1
      = sep_head_before_splice ""
        ++ ""
        ++ sep_head_after_splice hot_reload_js env options) := by
  constructor
  · simp [html_parts_separated, sep_head_before_splice, sep_head_after_splice,
      String.append_assoc]
  · simp [html_parts_separated, sep_head_before_splice, sep_head_after_splice,
      ← String.append_assoc]

/-- C8: `html_parts` never includes the dehydrated metadata fragment: its
output is unchanged under any change of the `dehydrate` (and `body`) component
of the metadata context, and its head mentions the context only through the
`<html>` attribute string. -/
theorem html_parts_ignores_dehydrate (hot_reload_js : String)
    (compile_env : CompileEnv) (env : Env) (options : LeptosOptions)
    (hm bm bm' : Option String) (d d' : String) :
    html_parts hot_reload_js compile_env env options (some ⟨hm, bm, d⟩)
      = html_parts hot_reload_js compile_env env options (some ⟨hm, bm', d'⟩)
    ∧ (html_parts hot_reload_js compile_env env options (some ⟨hm, bm, d⟩)).1
      = "<!DOCTYPE html>\n            <html"
        ++ hm.getD ""
        ++ ">\n                <head>\n                    <meta charset=\"utf-8\"/>\n                    <meta name=\"viewport\" content=\"width=device-width, initial-scale=1\"/>\n                    <link rel=\"modulepreload\" href=\"/"
        ++ options.site_pkg_dir
        ++ "/"
        ++ options.output_name
        ++ ".js\">\n                    <link rel=\"preload\" href=\"/"
        ++ options.site_pkg_dir
        ++ "/"
        ++ wasm_output_name_compile compile_env options.output_name
        ++ ".wasm\" as=\"fetch\" type=\"application/wasm\" crossorigin=\"\">\n                    <script type=\"module\">import init, \x7b hydrate \x7d from \x27/"
        ++ options.site_pkg_dir
        ++ "/"
        ++ options.output_name
        ++ ".js\x27; init(\x27/"
        ++ options.site_pkg_dir
        ++ "/"
        ++ wasm_output_name_compile compile_env options.output_name
        ++ ".wasm\x27).then(hydrate);</script>\n                    "
        ++ autoreload hot_reload_js env options
        ++ "\n                    " := ⟨rfl, rfl⟩


/-- C3: in every execution of `build_async_response` the runtime is disposed
exactly once, and disposal strictly follows both the stream exhaustion and
every metadata read (the shell-builder read and the second, authoritative
read): the event trace is a dispose-free prefix followed by the single
dispose event, so no read against the context occurs after disposal. -/
theorem build_async_response_dispose_last (stream : List String)
    (meta : Option MetaContext) :
    ∃ pre, build_async_response_events stream meta = pre ++ [Event.dispose]
      ∧ Event.dispose ∉ pre
      ∧ (build_async_response_events stream meta).count Event.dispose = 1 := by
  have hmem : Event.dispose ∉
      (stream.map Event.streamNext
        ++ [Event.contextLookup]
        ++ html_parts_separated_events meta
        ++ [Event.contextLookup]
        ++ (match meta with
            | some _ => [Event.dehydrateCall, Event.bodyAttrRead]
            | none => [])) := by
    cases meta <;> simp [html_parts_separated_events]
  refine ⟨_, rfl, hmem, ?_⟩
  rw [build_async_response_events.eq_def, List.count_append,
    List.count_eq_zero_of_not_mem hmem]
  rfl

/-- C10: with a metadata context present, the dehydrated head-metadata
fragment appears twice in the final document - once spliced inside the head
shell by the separated builder and once again immediately before the
`</head>` literal - and the event trace records exactly two distinct
dehydrate calls. -/
theorem dehydrate_read_twice (hot_reload_js : String) (env : Env)
    (stream : List String) (options : LeptosOptions) (m : MetaContext) :
    (build_async_response_events stream (some m)).count Event.dehydrateCall = 2
    ∧ build_async_response hot_reload_js env stream options ⟨some m⟩
        = sep_head_before_splice ((m.html).getD "")
          ++ m.dehydrate
          ++ sep_head_after_splice hot_reload_js env options
          ++ m.dehydrate
          ++ "</head><body"
          ++ ((m.body).getD "")
          ++ ">"
          ++ stream.foldl (fun buf chunk => buf ++ chunk) ""
          ++ "</body></html>" := by
  constructor
  · have h0 : (stream.map Event.streamNext).count Event.dehydrateCall = 0 :=
      List.count_eq_zero_of_not_mem (by simp)
    rw [build_async_response_events, List.count_append, List.count_append,
      List.count_append, List.count_append, List.count_append, h0]
    rfl
  · simp [build_async_response, html_parts_separated, sep_head_before_splice,
      sep_head_after_splice, String.append_assoc]

/-- Draining a fallible stream whose fragments up to the first error are all
ok aborts with exactly that first error. -/
theorem drain_fallible_first_error (buf : String) (pre : List String)
    (e : String) (rest : List (Except String String)) :
    drain_fallible buf (pre.map Except.ok ++ Except.error e :: rest)
      = Except.error e := by
  induction pre generalizing buf with
  | nil => rfl
  | cons c cs ih => exact ih (buf ++ c)

/-- Draining an error-free fallible stream accumulates all fragments in
arrival order. -/
theorem drain_fallible_all_ok (buf : String) (stream : List String) :
    drain_fallible buf (stream.map Except.ok)
      = Except.ok (stream.foldl (fun b c => b ++ c) buf) := by
  induction stream generalizing buf with
  | nil => rfl
  | cons c cs ih => exact ih (buf ++ c)

/-- C9: an error surfaced while draining the body stream aborts the whole
assembly and propagates to the caller unmodified - the result is that first
error and no partial document string - while an error-free stream assembles
exactly the document `build_async_response` produces. -/
theorem stream_error_propagates (hot_reload_js : String) (env : Env)
    (options : LeptosOptions) (ctx : RenderingContext) (pre : List String)
    (e : String) (rest : List (Except String String))
    (stream : List String) :
    build_async_response_fallible hot_reload_js env
        (pre.map Except.ok ++ Except.error e :: rest) options ctx
      = Except.error e
    ∧ build_async_response_fallible hot_reload_js env (stream.map Except.ok)
        options ctx
      = Except.ok (build_async_response hot_reload_js env stream options ctx) := by
  constructor
  · rw [build_async_response_fallible, drain_fallible_first_error]
    rfl
  · rw [build_async_response_fallible, drain_fallible_all_ok]
    rfl

/-- C4: with no override the WebAssembly preload path ends in
`output_name ++ "_bg" ++ ".wasm"`, with the override set it ends in
`output_name ++ ".wasm"`; `html_parts` resolves the override through the
compile-time environment while `html_parts_separated` resolves it through the
request-time environment, and each head carries the preload link for its
resolved name. -/
theorem wasm_preload_path (hot_reload_js : String) (options : LeptosOptions)
    (meta : Option MetaContext) (h p w : Option String) (s : String) :
    (wasm_output_name_compile ⟨none⟩ options.output_name ++ ".wasm"
        = options.output_name ++ "_bg" ++ ".wasm")
    ∧ (wasm_output_name_compile ⟨some s⟩ options.output_name ++ ".wasm"
        = options.output_name ++ ".wasm")
    ∧ (wasm_output_name_runtime ⟨h, p, w, none⟩ options.output_name ++ ".wasm"
        = options.output_name ++ "_bg" ++ ".wasm")
    ∧ (wasm_output_name_runtime ⟨h, p, w, some s⟩ options.output_name ++ ".wasm"
        = options.output_name ++ ".wasm")
    ∧ (∀ compile_env env, ∃ a b,
        (html_parts hot_reload_js compile_env env options meta).1
          = a ++ ("<link rel=\"preload\" href=\""
              ++ ("/" ++ options.site_pkg_dir ++ "/"
                  ++ wasm_output_name_compile compile_env options.output_name
                  ++ ".wasm")
              ++ "\" as=\"fetch\" type=\"application/wasm\" crossorigin=\"\"")
            ++ b)
    ∧ (∀ env, ∃ a b,
        (html_parts_separated hot_reload_js env options meta).1
          = a ++ ("<link rel=\"preload\" href=\""
              ++ ("/" ++ options.site_pkg_dir ++ "/"
                  ++ wasm_output_name_runtime env options.output_name
                  ++ ".wasm")
              ++ "\" as=\"fetch\" type=\"application/wasm\" crossorigin=\"\"")
            ++ b) := by
  refine ⟨rfl, rfl, rfl, rfl, ?_, ?_⟩
  · intro compile_env env
    refine ⟨"<!DOCTYPE html>\n            <html"
        ++ ((meta.bind fun mc => mc.html).getD "")
        ++ ">\n                <head>\n                    <meta charset=\"utf-8\"/>\n                    <meta name=\"viewport\" content=\"width=device-width, initial-scale=1\"/>\n                    <link rel=\"modulepreload\" href=\"/"
        ++ options.site_pkg_dir ++ "/" ++ options.output_name
        ++ ".js\">\n                    ",
      ">\n                    <script type=\"module\">import init, \x7b hydrate \x7d from \x27/"
        ++ options.site_pkg_dir ++ "/" ++ options.output_name
        ++ ".js\x27; init(\x27/"
        ++ options.site_pkg_dir ++ "/"
        ++ wasm_output_name_compile compile_env options.output_name
        ++ ".wasm\x27).then(hydrate);</script>\n                    "
        ++ autoreload hot_reload_js env options
        ++ "\n                    ", ?_⟩
    rw [html_parts]
    simp only [(by decide :
        (".js\">\n                    <link rel=\"preload\" href=\"/" : String)
          = ".js\">\n                    " ++ "<link rel=\"preload\" href=\"" ++ "/"),
      (by decide :
        (".wasm\" as=\"fetch\" type=\"application/wasm\" crossorigin=\"\">\n                    <script type=\"module\">import init, \x7b hydrate \x7d from \x27/" : String)
          = ".wasm" ++ "\" as=\"fetch\" type=\"application/wasm\" crossorigin=\"\"" ++ ">\n                    <script type=\"module\">import init, \x7b hydrate \x7d from \x27/"),
      String.append_assoc]
  · intro env
    refine ⟨"<!DOCTYPE html>\n            <html"
        ++ ((meta.bind fun mc => mc.html).getD "")
        ++ ">\n                <head>\n                    <meta charset=\"utf-8\"/>\n                    <meta name=\"viewport\" content=\"width=device-width, initial-scale=1\"/>\n                    "
        ++ ((meta.map fun m => m.dehydrate).getD "")
        ++ "\n                    <link rel=\"modulepreload\" href=\"/"
        ++ options.site_pkg_dir ++ "/" ++ options.output_name
        ++ ".js\">\n                    ",
      ">\n                    <script type=\"module\">import init, \x7b hydrate \x7d from \x27/"
        ++ options.site_pkg_dir ++ "/" ++ options.output_name
        ++ ".js\x27; init(\x27/"
        ++ options.site_pkg_dir ++ "/"
        ++ wasm_output_name_runtime env options.output_name
        ++ ".wasm\x27).then(hydrate);</script>\n                    "
        ++ autoreload hot_reload_js env options
        ++ "\n                    ", ?_⟩
    rw [html_parts_separated]
    simp only [(by decide :
        (".js\">\n                    <link rel=\"preload\" href=\"/" : String)
          = ".js\">\n                    " ++ "<link rel=\"preload\" href=\"" ++ "/"),
      (by decide :
        (".wasm\" as=\"fetch\" type=\"application/wasm\" crossorigin=\"\">\n                    <script type=\"module\">import init, \x7b hydrate \x7d from \x27/" : String)
          = ".wasm" ++ "\" as=\"fetch\" type=\"application/wasm\" crossorigin=\"\"" ++ ">\n                    <script type=\"module\">import init, \x7b hydrate \x7d from \x27/"),
      String.append_assoc]

/-- C6: with the watch flag present the generated script opens a WebSocket to
`ws://host:port/live_reload`, where host is the external-hostname override
when present and otherwise the host portion of the site address, and port is
the external-reload-port override when present and otherwise the configured
reload port; the trailing conjuncts spell out that the overrides take
precedence exactly when present. -/
theorem autoreload_ws_url (hot_reload_js : String) (h p o : Option String)
    (w : String) (options : LeptosOptions) :
    (autoreload hot_reload_js ⟨h, p, some w, o⟩ options =
      "\n                <script crossorigin=\"\">(function () \x7b\n                    "
      ++ hot_reload_js
      ++ "\n                    var ws = new WebSocket(\x27"
      ++ ("ws://" ++ h.getD options.site_addr.ip ++ ":"
          ++ p.getD (toString options.reload_port) ++ "/live_reload")
      ++ "\x27);\n                    ws.onmessage = (ev) => \x7b\n                        let msg = JSON.parse(ev.data);\n                        if (msg.all) window.location.reload();\n                        if (msg.css) \x7b\n                            let found = false;\n                            document.querySelectorAll(\"link\").forEach((link) => \x7b\n                                if (link.getAttribute(\x27href\x27).includes(msg.css)) \x7b\n                                    let newHref = \x27/\x27 + msg.css + \x27?version=\x27 + new Date().getMilliseconds();\n                                    link.setAttribute(\x27href\x27, newHref);\n                                    found = true;\n                                \x7d\n                            \x7d);\n                            if (!found) console.warn(\x60CSS hot-reload: Could not find a <link href=/\\\"$\x7bmsg.css\x7d\\\"> element\x60);\n                        \x7d;\n                        if(msg.view) \x7b\n                            patch(msg.view);\n                        \x7d\n                    \x7d;\n                    ws.onclose = () => console.warn(\x27Live-reload stopped. Manual reload necessary.\x27);\n                \x7d)()\n                </script>\n                ")
    ∧ (∀ hst : String, (some hst : Option String).getD options.site_addr.ip = hst)
    ∧ ((none : Option String).getD options.site_addr.ip = options.site_addr.ip)
    ∧ (∀ prt : String,
        (some prt : Option String).getD (toString options.reload_port) = prt)
    ∧ ((none : Option String).getD (toString options.reload_port)
        = toString options.reload_port)   := by
  refine ⟨?_, fun hst => rfl, rfl, fun prt => rfl, rfl⟩
  have hdef : autoreload hot_reload_js ⟨h, p, some w, o⟩ options
      = "\n                <script crossorigin=\"\">(function () \x7b\n                    "
        ++ hot_reload_js
        ++ "\n                    var ws = new WebSocket(\x27"
        ++ "ws://"
        ++ h.getD options.site_addr.ip
        ++ ":"
        ++ p.getD (toString options.reload_port)
        ++ "/live_reload"
        ++ "\x27);\n                    ws.onmessage = (ev) => \x7b\n                        let msg = JSON.parse(ev.data);\n                        if (msg.all) window.location.reload();\n                        if (msg.css) \x7b\n                            let found = false;\n                            document.querySelectorAll(\"link\").forEach((link) => \x7b\n                                if (link.getAttribute(\x27href\x27).includes(msg.css)) \x7b\n                                    let newHref = \x27/\x27 + msg.css + \x27?version=\x27 + new Date().getMilliseconds();\n                                    link.setAttribute(\x27href\x27, newHref);\n                                    found = true;\n                                \x7d\n                            \x7d);\n                            if (!found) console.warn(\x60CSS hot-reload: Could not find a <link href=/\\\"$\x7bmsg.css\x7d\\\"> element\x60);\n                        \x7d;\n                        if(msg.view) \x7b\n                            patch(msg.view);\n                        \x7d\n                    \x7d;\n                    ws.onclose = () => console.warn(\x27Live-reload stopped. Manual reload necessary.\x27);\n                \x7d)()\n                </script>\n                " := rfl
  rw [hdef]
  simp only [String.append_assoc]

end LeptosIntegrations
